import Mathlib

/-!
Verification of the debug-control core in `src/src/target/numicro_dap.c`
(an OpenOCD Cortex-M / Nuvoton NuMicro DAP target driver).

The C code is shallowly embedded: 32-bit registers become `Nat` with explicit
truncation where overflow matters, AP/DAP transport reads are supplied by
oracles (streams of values the hardware would return), and each driver
function becomes a pure Lean function from the driver state (plus oracles) to
the new state, the list of emitted AP transactions / target events, and a
result code.
-/

/-! ## Register-level constants

Bit layout of DHCSR / DFSR as used by the source.  The numeric values come
from `cortex_m.h`, which is not part of this repository's sources; they are
modelled from the spec's wire-protocol section: DHCSR write upper 16 bits =
DBGKEY (0xA05F); lower 16 bits C_DEBUGEN/C_HALT/C_STEP/C_MASKINTS; read
upper bits S_REGRDY, S_HALT, S_SLEEP, S_LOCKUP, S_RETIRE_ST, S_RESET_ST;
DFSR bits BKPT, DWTTRAP, VCATCH, EXTERNAL (the ARMv7-M architectural
values). -/

def UINT32_MAX : Nat := 2 ^ 32 - 1

/-- `DBGKEY` = 0xA05F in the upper half-word (`0xA05F << 16`). -/
def DBGKEY : Nat := 0xA05F <<< 16

def C_DEBUGEN : Nat := 1 <<< 0

def C_HALT : Nat := 1 <<< 1

def C_STEP : Nat := 1 <<< 2

def C_MASKINTS : Nat := 1 <<< 3

def S_REGRDY : Nat := 1 <<< 16

def S_HALT : Nat := 1 <<< 17

def S_SLEEP : Nat := 1 <<< 18

def S_LOCKUP : Nat := 1 <<< 19

def S_RETIRE_ST : Nat := 1 <<< 24

def S_RESET_ST : Nat := 1 <<< 25

def DFSR_HALTED : Nat := 1

def DFSR_BKPT : Nat := 2

def DFSR_DWTTRAP : Nat := 4

def DFSR_VCATCH : Nat := 8

def DFSR_EXTERNAL : Nat := 16

/-! ## Result codes (§7 error taxonomy / OpenOCD retvals) -/

inductive Err where
  | FAIL
  | TIMEOUT_REACHED
  | TARGET_NOT_HALTED
  | TARGET_UNALIGNED_ACCESS
  | TARGET_FAILURE
  | TRANSPORT
deriving DecidableEq, Repr

inductive Res where
  | OK
  | error (e : Err)
deriving DecidableEq, Repr

/-! ## C1: `cortex_m_write_debug_halt_mask` (numicro_dap.c:359-371)

The value written to DHCSR: mask off the upper 16 status bits and
`mask_off` from the cached value, then OR in `DBGKEY | C_DEBUGEN | mask_on`.
All quantities are `uint32_t` in C; `mask_off` is truncated to 32 bits when
building the complement mask so the `Nat` complement is well defined. -/

def dhcsr_masked_value (cached mask_on mask_off : Nat) : Nat :=
  (cached &&& (UINT32_MAX ^^^ ((0xFFFF <<< 16) ||| (mask_off &&& UINT32_MAX))))
    ||| DBGKEY ||| C_DEBUGEN ||| mask_on

/-- Every `(mask_on, mask_off)` pair passed to
`cortex_m_write_debug_halt_mask` anywhere in numicro_dap.c:
`cortex_m_set_maskints`, `cortex_m_clear_halt`, `cortex_m_single_step_core`,
`cortex_m_endreset_event`, `cortex_m_poll_one` (lockup), `cortex_m_halt_one`,
`cortex_m_soft_reset_halt`, `cortex_m_restart_one`, `cortex_m_step` and
`cortex_m_assert_reset`. -/
def dhcsr_call_site_masks : List (Nat × Nat) :=
  [ (C_MASKINTS, 0), (0, C_MASKINTS)                    -- set_maskints
  , (C_HALT, C_STEP)                                    -- clear_halt
  , (C_STEP, C_HALT)                                    -- single_step_core, step
  , (0, C_HALT ||| C_STEP ||| C_MASKINTS)               -- endreset_event, assert_reset
  , (C_HALT, 0)                                         -- poll_one lockup, halt_one, step, assert_reset
  , (0, C_STEP ||| C_MASKINTS)                          -- soft_reset_halt
  , (0, C_HALT)                                         -- restart_one, assert_reset
  , (C_HALT ||| C_MASKINTS, 0)                          -- step (masked-step sequences)
  , (0, C_HALT ||| C_STEP) ]                            -- step (start the core)

/-! ## C2: `cortex_m_examine_debug_reason` (numicro_dap.c:616-641) -/

inductive DebugReason where
  | DBGRQ
  | BREAKPOINT
  | WATCHPOINT
  | WPTANDBKPT
  | SINGLESTEP
  | NOTHALTED
  | UNDEFINED
deriving DecidableEq, Repr

def cortex_m_examine_debug_reason (debug_reason : DebugReason) (nvic_dfsr : Nat) :
    DebugReason :=
  if debug_reason ≠ .DBGRQ ∧ debug_reason ≠ .SINGLESTEP then
    if nvic_dfsr &&& DFSR_BKPT ≠ 0 then
      if nvic_dfsr &&& DFSR_DWTTRAP ≠ 0 then .WPTANDBKPT else .BREAKPOINT
    else if nvic_dfsr &&& DFSR_DWTTRAP ≠ 0 then .WATCHPOINT
    else if nvic_dfsr &&& DFSR_VCATCH ≠ 0 then .BREAKPOINT
    else if nvic_dfsr &&& DFSR_EXTERNAL ≠ 0 then .DBGRQ
    else .UNDEFINED
  else debug_reason

/-! ## C3: `cortex_m_read_memory` / `cortex_m_write_memory`
(numicro_dap.c:1732-1758) -/

inductive Arch where
  | V6M
  | V7M
  | V8M
deriving DecidableEq, Repr

/-- The AP transaction handed to the transport when the access is allowed. -/
inductive MemOp where
  | readBuf (size count address : Nat)
  | writeBuf (size count address : Nat)
deriving DecidableEq, Repr

def cortex_m_read_memory (arch : Arch) (address size count : Nat) :
    Except Err MemOp :=
  if arch = .V6M then
    if (size = 4 ∧ address &&& 0x3 ≠ 0) ∨ (size = 2 ∧ address &&& 0x1 ≠ 0) then
      .error .TARGET_UNALIGNED_ACCESS
    else .ok (.readBuf size count address)
  else .ok (.readBuf size count address)

def cortex_m_write_memory (arch : Arch) (address size count : Nat) :
    Except Err MemOp :=
  if arch = .V6M then
    if (size = 4 ∧ address &&& 0x3 ≠ 0) ∨ (size = 2 ∧ address &&& 0x1 ≠ 0) then
      .error .TARGET_UNALIGNED_ACCESS
    else .ok (.writeBuf size count address)
  else .ok (.writeBuf size count address)

/-! ## Target state model

A `Tgt` bundles the fields of `struct target` / `struct cortex_m_common`
that the verified functions touch.  DHCSR reads are supplied by the
`dhcsr_stream` oracle (the values successive `mem_ap_read_atomic_u32` of
DCB_DHCSR return, head first; an exhausted stream reads as 0); `dev_dfsr`
is the value the next NVIC_DFSR read returns. -/

inductive TargetState where
  | UNKNOWN
  | RUNNING
  | HALTED
  | RESET
  | DEBUG_RUNNING
deriving DecidableEq, Repr

inductive IsrMask where
  | AUTO
  | OFF
  | ON
  | STEPONLY
deriving DecidableEq, Repr

/-- Target events delivered through `target_call_event_callbacks`. -/
inductive Ev where
  | HALTED (id : Nat)
  | DEBUG_HALTED (id : Nat)
  | RESUMED (id : Nat)
  | DEBUG_RESUMED (id : Nat)
deriving DecidableEq, Repr

/-- AP transactions and breakpoint-store operations issued by the core. -/
inductive Act where
  | wrDhcsr (mask_on mask_off value : Nat)
  | rdDhcsr (value : Nat)
  | rdDfsr (value : Nat)
  | wrDfsr (value : Nat)
  | wrDcrdr (value : Nat)
  | rdDemcr
  | wrDemcr
  | wrAircr
  | restoreFpbDwt
  | restoreContext
  | unsetBp (addr : Nat)
  | setBp (addr : Nat)
  | addTempBp (addr : Nat) (soft : Bool)
  | removeTempBp (addr : Nat)
  | waitHalt
deriving DecidableEq, Repr

structure Tgt where
  id : Nat
  state : TargetState
  debug_reason : DebugReason
  smp : Bool
  examined : Bool
  /-- `target->smp_halt_event_postponed` -/
  postponed : Bool
  /-- `cortex_m->dcb_dhcsr` (cached last-read value) -/
  dcb_dhcsr : Nat
  /-- `cortex_m->dcb_dhcsr_cumulated_sticky` -/
  sticky : Nat
  /-- `cortex_m->nvic_dfsr` (snapshot taken by clear_halt) -/
  nvic_dfsr : Nat
  /-- value the next NVIC_DFSR device read returns -/
  dev_dfsr : Nat
  /-- oracle: values successive DHCSR device reads return -/
  dhcsr_stream : List Nat
  isrmasking_mode : IsrMask
  maskints_erratum : Bool
  slow_register_read : Bool
  regcache_valid : Bool
  /-- program counter as read from the register cache -/
  pc : Nat
  fp_rev : Nat
deriving DecidableEq, Repr

/-- numicro_dap.c:65-69 `cortex_m_cumulate_dhcsr_sticky` -/
def cortex_m_cumulate_dhcsr_sticky (sticky dhcsr : Nat) : Nat :=
  sticky ||| dhcsr

/-- numicro_dap.c:74-86 `cortex_m_read_dhcsr_atomic_sticky` -/
def cortex_m_read_dhcsr_atomic_sticky (t : Tgt) : Tgt × List Act :=
  let v := t.dhcsr_stream.headD 0
  ({ t with dcb_dhcsr := v,
            sticky := cortex_m_cumulate_dhcsr_sticky t.sticky v,
            dhcsr_stream := t.dhcsr_stream.tail }, [.rdDhcsr v])

/-- numicro_dap.c:359-371 `cortex_m_write_debug_halt_mask`: updates the
cached DHCSR to `dhcsr_masked_value` and writes it atomically. -/
def cortex_m_write_debug_halt_mask (t : Tgt) (mask_on mask_off : Nat) :
    Tgt × List Act :=
  let v := dhcsr_masked_value t.dcb_dhcsr mask_on mask_off
  ({ t with dcb_dhcsr := v }, [.wrDhcsr mask_on mask_off v])

/-- numicro_dap.c:373-380 `cortex_m_set_maskints` (edge-triggered) -/
def cortex_m_set_maskints (t : Tgt) (mask : Bool) : Tgt × List Act :=
  if decide (t.dcb_dhcsr &&& C_MASKINTS ≠ 0) ≠ mask then
    cortex_m_write_debug_halt_mask t (if mask then C_MASKINTS else 0)
      (if mask then 0 else C_MASKINTS)
  else (t, [])

/-- numicro_dap.c:382-404 -/
def cortex_m_set_maskints_for_halt (t : Tgt) : Tgt × List Act :=
  match t.isrmasking_mode with
  | .AUTO => cortex_m_set_maskints t false
  | .OFF => cortex_m_set_maskints t false
  | .ON => cortex_m_set_maskints t true
  | .STEPONLY => cortex_m_set_maskints t t.maskints_erratum

/-- numicro_dap.c:406-426 -/
def cortex_m_set_maskints_for_run (t : Tgt) : Tgt × List Act :=
  match t.isrmasking_mode with
  | .AUTO => cortex_m_set_maskints t false
  | .OFF => cortex_m_set_maskints t false
  | .ON => cortex_m_set_maskints t true
  | .STEPONLY => cortex_m_set_maskints t false

/-- numicro_dap.c:428-448 -/
def cortex_m_set_maskints_for_step (t : Tgt) : Tgt × List Act :=
  match t.isrmasking_mode with
  | .AUTO => cortex_m_set_maskints t true
  | .OFF => cortex_m_set_maskints t false
  | .ON => cortex_m_set_maskints t true
  | .STEPONLY => cortex_m_set_maskints t true

/-- numicro_dap.c:450-471 `cortex_m_clear_halt`: write C_HALT / clear
C_STEP, snapshot DFSR and write the snapshot back (DFSR is
write-1-to-clear, so the device's set bits are cleared). -/
def cortex_m_clear_halt (t : Tgt) : Tgt × List Act :=
  let p := cortex_m_write_debug_halt_mask t C_HALT C_STEP
  let t := p.1
  let dfsr := t.dev_dfsr
  ({ t with nvic_dfsr := dfsr, dev_dfsr := 0 },
   p.2 ++ [.rdDfsr dfsr, .wrDfsr dfsr])

/-- numicro_dap.c:516-614 `cortex_m_endreset_event`.  The DEMCR read, DCRDR
clear, FPB re-enable and FPB/DWT shadow rewrite do not touch the fields this
development reasons about; they are kept as trace entries.  The DHCSR
interactions and the register-cache invalidation are modelled exactly. -/
def cortex_m_endreset_event (t : Tgt) : Tgt × List Act :=
  let a0 := [Act.rdDemcr, Act.wrDcrdr 0]
  let p1 := cortex_m_read_dhcsr_atomic_sticky t
  let p2 :=
    if p1.1.dcb_dhcsr &&& C_DEBUGEN = 0 then
      cortex_m_write_debug_halt_mask p1.1 0 (C_HALT ||| C_STEP ||| C_MASKINTS)
    else (p1.1, [])
  let p3 := cortex_m_set_maskints_for_run p2.1
  let a4 := [Act.wrDemcr, Act.restoreFpbDwt]
  let t := { p3.1 with regcache_valid := false }
  let p5 := cortex_m_read_dhcsr_atomic_sticky t
  (p5.1, a0 ++ p1.2 ++ p2.2 ++ p3.2 ++ a4 ++ p5.2)

/-- numicro_dap.c:719-815 `cortex_m_debug_entry`, control-flow level: mask
policy for halt, clear_halt (DFSR snapshot), DHCSR refresh, debug-reason
examination.  The register-file refresh itself and the XPSR decode are the
transfer engine's concern and are modelled separately by
`debug_entry_load_regs`; here the refresh leaves the cache valid. -/
def cortex_m_debug_entry (t : Tgt) : Tgt × List Act :=
  let p1 := cortex_m_set_maskints_for_halt t
  let p2 := cortex_m_clear_halt p1.1
  let p3 := cortex_m_read_dhcsr_atomic_sticky p2.1
  let t := { p3.1 with
    debug_reason :=
      cortex_m_examine_debug_reason p3.1.debug_reason p3.1.nvic_dfsr }
  let t := { t with regcache_valid := true }
  (t, p1.2 ++ p2.2 ++ p3.2)

structure POut where
  tgt : Tgt
  evs : List Ev
  acts : List Act
  res : Res
deriving DecidableEq, Repr

/-- numicro_dap.c:825-849: the leading DHCSR read of poll_one and the
lockup recovery (write C_HALT, reason DBGRQ, refresh DHCSR); the Bool
records the "detected failure" latched for the caller. -/
def poll_read_and_lockup (t0 : Tgt) : Tgt × List Act × Bool :=
  let p1 := cortex_m_read_dhcsr_atomic_sticky t0
  if p1.1.dcb_dhcsr &&& S_LOCKUP ≠ 0 then
    let pw := cortex_m_write_debug_halt_mask p1.1 C_HALT 0
    let t := { pw.1 with debug_reason := .DBGRQ }
    let pr := cortex_m_read_dhcsr_atomic_sticky t
    (pr.1, p1.2 ++ pw.2 ++ pr.2, true)
  else (p1.1, p1.2, false)

/-- numicro_dap.c:860-873: run the end-of-reset sequence when the previous
state was RESET; the returned state is the updated `prev_target_state`. -/
def poll_reset_exit (t : Tgt) (prev : TargetState) :
    Tgt × List Act × TargetState :=
  if t.state = .RESET then
    let p := cortex_m_endreset_event t
    ({ p.1 with state := .RUNNING }, p.2, .RUNNING)
  else (t, [], prev)

/-- numicro_dap.c:875-900: the S_HALT handling, including debug entry and
the postponed-event decision for SMP members. -/
def poll_halt_phase (t : Tgt) (prev : TargetState) :
    Tgt × List Ev × List Act :=
  if t.dcb_dhcsr &&& S_HALT ≠ 0 then
    let t := { t with state := .HALTED }
    let te1 :=
      if prev = .RUNNING ∨ prev = .RESET then
        let p := cortex_m_debug_entry t
        if p.1.smp then ({ p.1 with postponed := true }, ([] : List Ev), p.2)
        else (p.1, [Ev.HALTED p.1.id], p.2)
      else (t, ([] : List Ev), ([] : List Act))
    let t := te1.1
    let te2 :=
      if prev = .DEBUG_RUNNING then
        let p := cortex_m_debug_entry t
        (p.1, [Ev.DEBUG_HALTED p.1.id], p.2)
      else (t, ([] : List Ev), ([] : List Act))
    (te2.1, te1.2.1 ++ te2.2.1, te1.2.2 ++ te2.2.2)
  else (t, [], [])

/-- numicro_dap.c:902-924: liveness detection from UNKNOWN and the
external-resume check. -/
def poll_tail_phase (t : Tgt) (prev : TargetState) : Tgt × List Ev :=
  let t :=
    if t.state = .UNKNOWN ∧
        (t.dcb_dhcsr &&& S_RETIRE_ST ≠ 0 ∨ t.dcb_dhcsr &&& S_SLEEP ≠ 0) then
      { t with state := .RUNNING }
    else t
  if prev = .HALTED ∧ t.dcb_dhcsr &&& S_HALT = 0 then
    ({ t with regcache_valid := false, state := .RUNNING },
     [Ev.RESUMED t.id])
  else (t, [])

/-- numicro_dap.c:817-930 `cortex_m_poll_one`.  Transport reads succeed (the
oracle supplies their values); `arm_semihosting` is an external collaborator
that reports "not handled" here. -/
def cortex_m_poll_one (t0 : Tgt) : POut :=
  let prev := t0.state
  let p1 := poll_read_and_lockup t0
  let t := p1.1
  if t.sticky &&& S_RESET_ST ≠ 0 then
    let t := { t with sticky := t.sticky &&& (UINT32_MAX ^^^ S_RESET_ST) }
    let t := if t.state ≠ .RESET then { t with state := .RESET } else t
    ⟨t, [], p1.2.1, .OK⟩
  else
    let p2 := poll_reset_exit t prev
    let p3 := poll_halt_phase p2.1 p2.2.2
    let p4 := poll_tail_phase p3.1 p2.2.2
    ⟨p4.1, p3.2.1 ++ p4.2, p1.2.1 ++ p2.2.1 ++ p3.2.2,
     if p1.2.2 then .error .FAIL else .OK⟩

/-- `jtag_get_reset_config() & RESET_SRST_PULLS_TRST` and
`jtag_get_srst()` as consulted by halt_one in the RESET state. -/
structure JtagCfg where
  srst_pulls_trst : Bool
  srst_asserted : Bool
deriving DecidableEq, Repr

/-- numicro_dap.c:1029-1064 `cortex_m_halt_one` -/
def cortex_m_halt_one (cfg : JtagCfg) (t : Tgt) : POut :=
  if t.state = .HALTED then ⟨t, [], [], .OK⟩
  else if t.state = .RESET then
    if cfg.srst_pulls_trst ∧ cfg.srst_asserted then
      ⟨t, [], [], .error .TARGET_FAILURE⟩
    else ⟨{ t with debug_reason := .DBGRQ }, [], [], .OK⟩
  else
    let p1 := cortex_m_write_debug_halt_mask t C_HALT 0
    let p2 := cortex_m_set_maskints_for_halt p1.1
    ⟨{ p2.1 with debug_reason := .DBGRQ }, [], p1.2 ++ p2.2, .OK⟩

/-- "store the first error code ignore others" accumulation used by the SMP
fan-out loops. -/
def res_first (r1 r2 : Res) : Res :=
  if r1 ≠ .OK then r1 else r2

/-- numicro_dap.c:934-951 `cortex_m_smp_halt_all` -/
def cortex_m_smp_halt_all (cfg : JtagCfg) : List Tgt → List Tgt × Res
  | [] => ([], .OK)
  | t :: rest =>
    let hd :=
      if ¬t.examined ∨ t.state = .HALTED then (t, Res.OK)
      else
        let o := cortex_m_halt_one cfg t
        (o.tgt, o.res)
    let tl := cortex_m_smp_halt_all cfg rest
    (hd.1 :: tl.1, res_first hd.2 tl.2)

/-- numicro_dap.c:953-971 `cortex_m_smp_post_halt_poll` -/
def cortex_m_smp_post_halt_poll : List Tgt → List Tgt × List Ev × Res
  | [] => ([], [], .OK)
  | t :: rest =>
    let hd :=
      if ¬t.examined ∨ t.state = .HALTED then (t, ([] : List Ev), Res.OK)
      else
        let o := cortex_m_poll_one t
        (o.tgt, o.evs, o.res)
    let tl := cortex_m_smp_post_halt_poll rest
    (hd.1 :: tl.1, hd.2.1 ++ tl.2.1, res_first hd.2.2 tl.2.2)

/-- numicro_dap.c:994-1004: the consolidation loop of poll_smp; clears each
set postponement flag and emits the postponed HALTED event for the targets
that are halted. -/
def smp_emit_postponed : List Tgt → List Tgt × List Ev
  | [] => ([], [])
  | t :: rest =>
    let hd :=
      if t.postponed then
        ({ t with postponed := false },
         if t.state = .HALTED then [Ev.HALTED t.id] else [])
      else (t, ([] : List Ev))
    let tl := smp_emit_postponed rest
    (hd.1 :: tl.1, hd.2 ++ tl.2)

/-- numicro_dap.c:973-1011 `cortex_m_poll_smp` -/
def cortex_m_poll_smp (cfg : JtagCfg) (ts : List Tgt) :
    List Tgt × List Ev × Res :=
  if ts.any (fun t => t.postponed) then
    let p1 := cortex_m_smp_halt_all cfg ts
    let p2 := cortex_m_smp_post_halt_poll p1.1
    let p3 := smp_emit_postponed p2.1
    (p3.1, p2.2.1 ++ p3.2, res_first p1.2 p2.2.2)
  else (ts, [], .OK)

/-! ## Register transfer engine (C2 of the spec; claims C4 and C7) -/

/-- The transfer-engine state: `cortex_m->slow_register_read` and the sticky
DHCSR accumulator. -/
structure RegCM where
  slow_register_read : Bool
  sticky : Nat
deriving DecidableEq, Repr

/-- numicro_dap.c:185-307 `cortex_m_fast_read_all_regs`.  The pipelined
queue+flush phase is represented by its observable outcome `captured` (the
DHCSR value captured alongside each queued register read); `restore_ok` is
the result of the separate DCRDR-restore transaction performed when DCC
messaging (`dbg_msg`) is enabled.  After the flush: accumulate every
captured DHCSR into the sticky word and fail with TIMEOUT if any had
S_REGRDY clear (numicro_dap.c:255-268). -/
def cortex_m_fast_read_all_regs (cm : RegCM) (dbg_msg restore_ok : Bool)
    (captured : List Nat) : RegCM × Res :=
  if dbg_msg ∧ ¬restore_ok then (cm, .error .TRANSPORT)
  else
    let cm := { cm with
      sticky := captured.foldl cortex_m_cumulate_dhcsr_sticky cm.sticky }
    if captured.any (fun d => d &&& S_REGRDY = 0) then
      (cm, .error .TIMEOUT_REACHED)
    else (cm, .OK)

/-- Body loop of numicro_dap.c:143-166: each element of `loads` is one
`read_core_reg` outcome `(polled, res)` - whether the S_REGRDY wait loop in
`cortex_m_load_core_reg_u32` needed at least one poll iteration
(numicro_dap.c:123 sets `slow_register_read` in that case), and the read's
result. -/
def slow_read_go (cm : RegCM) : List (Bool × Res) → RegCM × Res
  | [] => (cm, .OK)
  | (polled, r) :: rest =>
    let cm := if polled then { cm with slow_register_read := true } else cm
    if r ≠ .OK then (cm, r)
    else slow_read_go cm rest

/-- numicro_dap.c:143-166 `cortex_m_slow_read_all_regs`: opportunistically
restore fast reads, then read every register through the polled path. -/
def cortex_m_slow_read_all_regs (cm : RegCM) (loads : List (Bool × Res)) :
    RegCM × Res :=
  slow_read_go { cm with slow_register_read := false } loads

/-- numicro_dap.c:756-769: the register refresh inside cortex_m_debug_entry.
The returned Bool tells whether the per-register polled (slow) path ran. -/
def debug_entry_load_regs (cm : RegCM) (dbg_msg restore_ok : Bool)
    (captured : List Nat) (loads : List (Bool × Res)) : RegCM × Res × Bool :=
  if ¬cm.slow_register_read then
    let fr := cortex_m_fast_read_all_regs cm dbg_msg restore_ok captured
    let cm := if fr.2 = .error .TIMEOUT_REACHED then
        { fr.1 with slow_register_read := true }
      else fr.1
    if cm.slow_register_read then
      let sr := cortex_m_slow_read_all_regs cm loads
      (sr.1, sr.2, true)
    else (cm, fr.2, false)
  else
    let sr := cortex_m_slow_read_all_regs cm loads
    (sr.1, sr.2, true)

/-- numicro_dap.c:109-129 / 334-347: the S_REGRDY wait loop of
`cortex_m_load_core_reg_u32` / `cortex_m_store_core_reg_u32`.  `oracle i` is
the DHCSR value the i-th poll read returns; `fuel` models the 500 ms budget:
when it is exhausted the next not-ready poll fails with TIMEOUT.  Returns
the result together with the final `slow_register_read` flag. -/
def regrdy_wait (oracle : Nat → Nat) : Bool → Nat → Nat → Res × Bool
  | slow, i, 0 =>
    if oracle i &&& S_REGRDY ≠ 0 then (.OK, slow)
    else (.error .TIMEOUT_REACHED, true)
  | slow, i, fuel + 1 =>
    if oracle i &&& S_REGRDY ≠ 0 then (.OK, slow)
    else regrdy_wait oracle true (i + 1) fuel

/-! ## Soft reset halt (claim C7) -/

/-- numicro_dap.c:1112-1133: the `while (timeout < 100)` wait loop.
`oracle i = (dhcsr, dfsr)` are the values iteration i reads; returns
whether halted-with-VCATCH was observed within the budget. -/
def srh_wait (oracle : Nat → Nat × Nat) : Nat → Nat → Bool
  | _, 0 => false
  | i, rem + 1 =>
    let p := oracle i
    if p.1 &&& S_HALT ≠ 0 ∧ p.2 &&& DFSR_VCATCH ≠ 0 then true
    else srh_wait oracle (i + 1) rem

/-- numicro_dap.c:1074-1136 `cortex_m_soft_reset_halt`: refuse without
VECTRESET support; write DHCSR (clear C_STEP/C_MASKINTS), DEMCR with
VC_CORERESET, AIRCR with VECTKEY|VECTRESET; enter RESET and invalidate the
register cache; then wait up to 100 iterations of 1 ms for halted-with-
VCATCH.  Whether that state was reached is returned alongside the result:
on success the function returns ERROR_OK after an extra poll, and when the
loop expires it falls out and returns ERROR_OK as well
(numicro_dap.c:1135). -/
def cortex_m_soft_reset_halt (t : Tgt) (vectreset_supported : Bool)
    (oracle : Nat → Nat × Nat) : Tgt × List Act × Res × Bool :=
  if ¬vectreset_supported then (t, [], .error .FAIL, false)
  else
    let p1 := cortex_m_write_debug_halt_mask t 0 (C_STEP ||| C_MASKINTS)
    let a2 := [Act.wrDemcr, Act.wrAircr]
    let t := { p1.1 with state := .RESET, regcache_valid := false }
    let reached := srh_wait oracle 0 100
    (t, p1.2 ++ a2, .OK, reached)

/-! ## Step engine (claims C7 and C8) -/

/-- Which of the step engine's execution paths ran
(numicro_dap.c:1357-1472). -/
inductive StepPath where
  | notHalted
  | simulated
  | plainNonAuto
  | shortcutMasked
  | plainNoSlot
  | tempBp (timed_out : Bool)
deriving DecidableEq, Repr

structure StepOut where
  tgt : Tgt
  acts : List Act
  evs : List Ev
  res : Res
  path : StepPath
deriving DecidableEq, Repr

/-- numicro_dap.c:1438-1445: poll DHCSR until S_HALT is observed or the
500 ms budget elapses; `fuel` is the budget in remaining poll iterations
(the do-while always performs at least one read). -/
def isr_wait : Tgt → Nat → Tgt × List Act × Bool
  | t, 0 =>
    let p := cortex_m_read_dhcsr_atomic_sticky t
    if p.1.dcb_dhcsr &&& S_HALT ≠ 0 then (p.1, p.2, false)
    else (p.1, p.2, true)
  | t, fuel + 1 =>
    let p := cortex_m_read_dhcsr_atomic_sticky t
    if p.1.dcb_dhcsr &&& S_HALT ≠ 0 then (p.1, p.2, false)
    else
      let w := isr_wait p.1 fuel
      (w.1, p.2 ++ w.2.1, w.2.2)

/-- numicro_dap.c:1360-1472: the execute phase of `cortex_m_step` (the
body of `if (!bkpt_inst_found)`).  Returns the updated target, the actions
issued, the `isr_timed_out` flag and which path ran. -/
def step_exec_phase (t : Tgt) (pc_value : Nat) (bp_found : Bool)
    (bpFind : Nat → Bool) (bkpt_inst_found tmp_bp_ok : Bool) (fuel : Nat) :
    Tgt × List Act × Bool × StepPath :=
  if bkpt_inst_found then (t, [], false, .simulated)
  else if t.isrmasking_mode ≠ .AUTO then
    let q1 := cortex_m_set_maskints_for_step t
    let q2 := cortex_m_write_debug_halt_mask q1.1 C_STEP C_HALT
    (q2.1, q1.2 ++ q2.2, false, .plainNonAuto)
  else if pc_value &&& 0x02 ≠ 0 ∧
      bpFind (pc_value &&& (UINT32_MAX ^^^ 0x03)) = true then
    let q1 := cortex_m_write_debug_halt_mask t (C_HALT ||| C_MASKINTS) 0
    let q2 := cortex_m_write_debug_halt_mask q1.1 C_STEP C_HALT
    let q3 := cortex_m_write_debug_halt_mask q2.1 C_HALT 0
    let q4 := cortex_m_set_maskints_for_halt q3.1
    (q4.1, q1.2 ++ q2.2 ++ q3.2 ++ q4.2, false, .shortcutMasked)
  else
    let atmp :=
      if bp_found then [Act.setBp pc_value]
      else
        [Act.addTempBp pc_value
          (decide (t.fp_rev = 0 ∧ pc_value > 0x1FFFFFFF))]
    if ¬tmp_bp_ok then
      let q1 := cortex_m_set_maskints_for_step t
      let q2 := cortex_m_write_debug_halt_mask q1.1 C_STEP C_HALT
      let q3 := cortex_m_write_debug_halt_mask q2.1 C_HALT 0
      let q4 := cortex_m_set_maskints_for_halt q3.1
      (q4.1, atmp ++ q1.2 ++ q2.2 ++ q3.2 ++ q4.2, false, .plainNoSlot)
    else
      let q1 := cortex_m_set_maskints_for_run t
      let q2 := cortex_m_write_debug_halt_mask q1.1 0 (C_HALT ||| C_STEP)
      let w := isr_wait q2.1 fuel
      let aw := Act.waitHalt :: w.2.1
      let tmo := w.2.2
      let arem := if bp_found then [Act.unsetBp pc_value]
        else [Act.removeTempBp pc_value]
      if tmo then
        (w.1, atmp ++ q1.2 ++ q2.2 ++ aw ++ arem, true, .tempBp true)
      else
        let q3 := cortex_m_set_maskints_for_step w.1
        let q4 := cortex_m_write_debug_halt_mask q3.1 (C_HALT ||| C_MASKINTS) 0
        let q5 := cortex_m_write_debug_halt_mask q4.1 C_STEP C_HALT
        let q6 := cortex_m_write_debug_halt_mask q5.1 C_HALT 0
        let q7 := cortex_m_set_maskints_for_halt q6.1
        (q7.1, atmp ++ q1.2 ++ q2.2 ++ aw ++ arem ++ q3.2 ++ q4.2 ++ q5.2 ++
           q6.2 ++ q7.2,
         false, .tempBp false)

/-- numicro_dap.c:1312-1505 `cortex_m_step`.  `bpFind` is `breakpoint_find`
on the target's breakpoint store; `bkpt_inst_found` the disassembler's
`armv7m_maybe_skip_bkpt_inst` outcome; `tmp_bp_ok` whether installing the
temporary breakpoint succeeds; `fuel` the 500 ms interrupt-step budget. -/
def cortex_m_step (t0 : Tgt) (current : Bool) (address : Nat)
    (handle_breakpoints : Bool) (bpFind : Nat → Bool)
    (bkpt_inst_found tmp_bp_ok : Bool) (fuel : Nat) : StepOut :=
  if t0.state ≠ .HALTED then ⟨t0, [], [], .error .TARGET_NOT_HALTED, .notHalted⟩
  else
    let t := if ¬current then { t0 with pc := address } else t0
    let pc_value := t.pc
    let bp_found := handle_breakpoints && bpFind pc_value
    let a1 := if bp_found then [Act.unsetBp pc_value] else []
    let t := { t with debug_reason := .SINGLESTEP }
    let a2 := [Act.restoreContext]
    let evs0 := [Ev.RESUMED t.id]
    let ex := step_exec_phase t pc_value bp_found bpFind bkpt_inst_found
      tmp_bp_ok fuel
    let a3 := ex.2.1
    let timed := ex.2.2.1
    let path := ex.2.2.2
    let p4 := cortex_m_read_dhcsr_atomic_sticky ex.1
    let t := { p4.1 with regcache_valid := false }
    let a5 := if bp_found then [Act.setBp pc_value] else []
    if timed then
      ⟨{ t with debug_reason := .NOTHALTED, state := .RUNNING },
       a1 ++ a2 ++ a3 ++ p4.2 ++ a5, evs0, .OK, path⟩
    else
      let p6 := cortex_m_debug_entry t
      ⟨p6.1, a1 ++ a2 ++ a3 ++ p4.2 ++ a5 ++ p6.2,
       evs0 ++ [Ev.HALTED p6.1.id], .OK, path⟩

/-! ## Resume (claim C9) -/

/-- numicro_dap.c:1284-1309 `cortex_m_resume`: control-flow glue around the
context restore of the requested target (`restore_one_res`,
numicro_dap.c:1287), the SMP restore fan-out (`restore_smp_res`,
numicro_dap.c:1294, only when `target->smp && !debug_execution`) and the
restart of the requested target (`restart_one_res`, numicro_dap.c:1299,
whose return value the source drops).  Returns the propagated result and
whether cortex_m_restart_one was invoked on the requested target. -/
def cortex_m_resume (smp debug_execution : Bool)
    (restore_one_res restore_smp_res restart_one_res : Res) : Res × Bool :=
  if restore_one_res ≠ .OK then (restore_one_res, false)
  else
    let retval := if smp ∧ ¬debug_execution then restore_smp_res else .OK
    let _ := restart_one_res
    if retval ≠ .OK then (retval, true)
    else (.OK, true)

/-- The `(mask_on, mask_off)` arguments of the DHCSR writes in a trace, in
order. -/
def dhcsrWriteMasks : List Act → List (Nat × Nat)
  | [] => []
  | Act.wrDhcsr mask_on mask_off _ :: rest => (mask_on, mask_off) :: dhcsrWriteMasks rest
  | _ :: rest => dhcsrWriteMasks rest

/-- A concrete target used to instantiate the theorems: examined,
running, quiescent debug registers, AUTO interrupt masking. -/
def tgt0 : Tgt :=
  { id := 0, state := .RUNNING, debug_reason := .UNDEFINED, smp := false,
    examined := true, postponed := false, dcb_dhcsr := 0, sticky := 0,
    nvic_dfsr := 0, dev_dfsr := 0, dhcsr_stream := [],
    isrmasking_mode := .AUTO, maskints_erratum := false,
    slow_register_read := false, regcache_valid := true, pc := 0, fp_rev := 1 }

/-! ## Helper lemmas (bit arithmetic) -/

theorem testBit_uint32_max (j : Nat) : UINT32_MAX.testBit j = decide (j < 32) := by
  unfold UINT32_MAX
  exact Nat.testBit_two_pow_sub_one 32 j

theorem testBit_ffff (j : Nat) : (0xFFFF : Nat).testBit j = decide (j < 16) := by
  have h : (0xFFFF : Nat) = 2 ^ 16 - 1 := by norm_num
  rw [h]
  exact Nat.testBit_two_pow_sub_one 16 j

/-- Bits 16..31 of the `cached & ~(STATUS_MASK | mask_off)` part are zero:
the status mask covers the whole upper half-word. -/
theorem testBit_dhcsr_low_part (cached mask_off j : Nat) (hj : 16 ≤ j) :
    (cached &&&
      (UINT32_MAX ^^^ ((0xFFFF <<< 16) ||| (mask_off &&& UINT32_MAX)))).testBit j
      = false := by
  rw [Nat.testBit_and, Nat.testBit_xor, Nat.testBit_or, Nat.testBit_shiftLeft,
    Nat.testBit_and, testBit_ffff, testBit_uint32_max]
  rcases Nat.lt_or_ge j 32 with hj32 | hj32
  · have e1 : decide (j < 32) = true := by simp [hj32]
    have e2 : decide (16 ≤ j) = true := by simp [hj]
    have e3 : decide (j - 16 < 16) = true := by
      simp only [decide_eq_true_eq]; omega
    rw [e1, e2, e3]
    simp
  · have e1 : decide (j < 32) = false := by
      simp only [decide_eq_false_iff_not]; omega
    have e3 : decide (j - 16 < 16) = false := by
      simp only [decide_eq_false_iff_not]; omega
    rw [e1, e3]
    simp

theorem testBit_dhcsr_masked_value_high (cached mask_on mask_off : Nat)
    (h : mask_on < 2 ^ 16) (i : Nat) :
    (dhcsr_masked_value cached mask_on mask_off).testBit (16 + i) =
      (0xA05F : Nat).testBit i := by
  have hlow := testBit_dhcsr_low_part cached mask_off (16 + i) (Nat.le_add_right 16 i)
  have hdbg : (DBGKEY).testBit (16 + i) = (0xA05F : Nat).testBit i := by
    unfold DBGKEY
    rw [Nat.testBit_shiftLeft]
    have e2 : decide (16 ≤ 16 + i) = true := by simp
    rw [e2]
    simp [Nat.add_sub_cancel_left]
  have hen : (C_DEBUGEN).testBit (16 + i) = false := by
    apply Nat.testBit_lt_two_pow
    calc C_DEBUGEN = 1 := rfl
      _ < 2 ^ 1 := by norm_num
      _ ≤ 2 ^ (16 + i) := Nat.pow_le_pow_right (by norm_num) (by omega)
  have hon : mask_on.testBit (16 + i) = false := by
    apply Nat.testBit_lt_two_pow
    calc mask_on < 2 ^ 16 := h
      _ ≤ 2 ^ (16 + i) := Nat.pow_le_pow_right (by norm_num) (by omega)
  unfold dhcsr_masked_value
  simp only [Nat.testBit_or]
  rw [hlow, hdbg, hen, hon]
  simp

theorem dhcsr_masked_value_high (cached mask_on mask_off : Nat)
    (h : mask_on < 2 ^ 16) :
    (dhcsr_masked_value cached mask_on mask_off) >>> 16 = 0xA05F := by
  apply Nat.eq_of_testBit_eq
  intro i
  rw [Nat.testBit_shiftRight]
  exact testBit_dhcsr_masked_value_high cached mask_on mask_off h i

theorem dhcsr_masked_value_debugen (cached mask_on mask_off : Nat) :
    (dhcsr_masked_value cached mask_on mask_off).testBit 0 = true := by
  rw [dhcsr_masked_value, Nat.testBit_or, Nat.testBit_or, Nat.testBit_or]
  have : (C_DEBUGEN).testBit 0 = true := by decide
  simp [this]

/-! ## Claim theorems -/

/-- **C1.** Every DHCSR write issued by the core goes through
`cortex_m_write_debug_halt_mask`, which rebuilds the value as
`(cached & ~(STATUS_MASK | clear_mask)) | DBGKEY | C_DEBUGEN | set_mask`
(verified by `dhcsr_masked_value` being the literal translation of
numicro_dap.c:366-368, and `dhcsr_call_site_masks` enumerating every call
site's masks); hence for every DHCSR write the high half-word equals DBGKEY
(0xA05F) and C_DEBUGEN (bit 0) is set. -/
theorem c1_dhcsr_write_dbgkey_and_debugen :
    ∀ p ∈ dhcsr_call_site_masks, ∀ cached : Nat,
      (dhcsr_masked_value cached p.1 p.2) >>> 16 = 0xA05F ∧
      (dhcsr_masked_value cached p.1 p.2).testBit 0 = true := by
  intro p hp cached
  have hlt : p.1 < 2 ^ 16 := by
    fin_cases hp <;> decide
  exact ⟨dhcsr_masked_value_high cached p.1 p.2 hlt,
         dhcsr_masked_value_debugen cached p.1 p.2⟩

/-- Witness for C1 at the `cortex_m_halt_one` call site `(C_HALT, 0)`
with cached DHCSR `0x01234567`. -/
theorem c1_dhcsr_write_dbgkey_and_debugen_witness :
    (dhcsr_masked_value 0x01234567 C_HALT 0) >>> 16 = 0xA05F ∧
    (dhcsr_masked_value 0x01234567 C_HALT 0).testBit 0 = true :=
  c1_dhcsr_write_dbgkey_and_debugen (C_HALT, 0) (by decide) 0x01234567

/-- **C2.** When the prior debug_reason is neither DBGRQ nor SINGLESTEP,
`cortex_m_examine_debug_reason` maps the snapshotted DFSR bits to the debug
reason exactly per the truth table (BKPT alone → BREAKPOINT, BKPT with
DWTTRAP → WPT_AND_BKPT, DWTTRAP alone → WATCHPOINT, VCATCH → BREAKPOINT,
EXTERNAL → DBGRQ, none → UNDEFINED); when the prior reason is DBGRQ or
SINGLESTEP the reason is left unchanged. -/
theorem c2_debug_reason_truth_table (prior : DebugReason) (dfsr : Nat) :
    (prior ≠ .DBGRQ → prior ≠ .SINGLESTEP →
      ((dfsr &&& DFSR_BKPT ≠ 0 → dfsr &&& DFSR_DWTTRAP = 0 →
          cortex_m_examine_debug_reason prior dfsr = .BREAKPOINT) ∧
       (dfsr &&& DFSR_BKPT ≠ 0 → dfsr &&& DFSR_DWTTRAP ≠ 0 →
          cortex_m_examine_debug_reason prior dfsr = .WPTANDBKPT) ∧
       (dfsr &&& DFSR_BKPT = 0 → dfsr &&& DFSR_DWTTRAP ≠ 0 →
          cortex_m_examine_debug_reason prior dfsr = .WATCHPOINT) ∧
       (dfsr &&& DFSR_BKPT = 0 → dfsr &&& DFSR_DWTTRAP = 0 →
          dfsr &&& DFSR_VCATCH ≠ 0 →
          cortex_m_examine_debug_reason prior dfsr = .BREAKPOINT) ∧
       (dfsr &&& DFSR_BKPT = 0 → dfsr &&& DFSR_DWTTRAP = 0 →
          dfsr &&& DFSR_VCATCH = 0 → dfsr &&& DFSR_EXTERNAL ≠ 0 →
          cortex_m_examine_debug_reason prior dfsr = .DBGRQ) ∧
       (dfsr &&& DFSR_BKPT = 0 → dfsr &&& DFSR_DWTTRAP = 0 →
          dfsr &&& DFSR_VCATCH = 0 → dfsr &&& DFSR_EXTERNAL = 0 →
          cortex_m_examine_debug_reason prior dfsr = .UNDEFINED))) ∧
    (prior = .DBGRQ ∨ prior = .SINGLESTEP →
      cortex_m_examine_debug_reason prior dfsr = prior) := by
  constructor
  · intro h1 h2
    refine ⟨?_, ?_, ?_, ?_, ?_, ?_⟩ <;>
      · intros
        unfold cortex_m_examine_debug_reason
        simp_all
  · intro h
    unfold cortex_m_examine_debug_reason
    rcases h with h | h <;> simp [h]

/-- Witness for C2: prior reason BREAKPOINT, DFSR with only the BKPT bit set
(value 2) maps to BREAKPOINT; prior DBGRQ is left unchanged. -/
theorem c2_debug_reason_truth_table_witness :
    cortex_m_examine_debug_reason .BREAKPOINT 2 = .BREAKPOINT ∧
    cortex_m_examine_debug_reason .DBGRQ 2 = .DBGRQ :=
  ⟨((c2_debug_reason_truth_table .BREAKPOINT 2).1 (by decide) (by decide)).1
      (by decide) (by decide),
   (c2_debug_reason_truth_table .DBGRQ 2).2 (Or.inl rfl)⟩

/-- Alignment in the claim is phrased with mod; the code tests `addr & 3`
and `addr & 1`. -/
theorem and_three_eq_mod_four (a : Nat) : a &&& 3 = a % 4 := by
  have h := Nat.and_pow_two_sub_one_eq_mod a 2
  norm_num at h
  exact h

theorem and_one_eq_mod_two (a : Nat) : a &&& 1 = a % 2 :=
  Nat.and_one_is_mod a

/-- **C3.** For every memory read or write on a target with arch V6M, if
size is 4 and the address is not 4-aligned, or size is 2 and the address is
not 2-aligned, the operation returns the UNALIGNED error and no AP
transaction is issued; for aligned accesses or non-V6M architectures the
access is passed to the transport (`mem_ap_read_buf` / `mem_ap_write_buf`). -/
theorem c3_v6m_unaligned_rejected (arch : Arch) (address size count : Nat) :
    (arch = .V6M → size = 4 → address % 4 ≠ 0 →
      cortex_m_read_memory arch address size count =
          .error .TARGET_UNALIGNED_ACCESS ∧
      cortex_m_write_memory arch address size count =
          .error .TARGET_UNALIGNED_ACCESS) ∧
    (arch = .V6M → size = 2 → address % 2 ≠ 0 →
      cortex_m_read_memory arch address size count =
          .error .TARGET_UNALIGNED_ACCESS ∧
      cortex_m_write_memory arch address size count =
          .error .TARGET_UNALIGNED_ACCESS) ∧
    (arch = .V6M → ¬(size = 4 ∧ address % 4 ≠ 0) → ¬(size = 2 ∧ address % 2 ≠ 0) →
      cortex_m_read_memory arch address size count =
          .ok (.readBuf size count address) ∧
      cortex_m_write_memory arch address size count =
          .ok (.writeBuf size count address)) ∧
    (arch ≠ .V6M →
      cortex_m_read_memory arch address size count =
          .ok (.readBuf size count address) ∧
      cortex_m_write_memory arch address size count =
          .ok (.writeBuf size count address)) := by
  refine ⟨?_, ?_, ?_, ?_⟩ <;>
    · intros
      unfold cortex_m_read_memory cortex_m_write_memory
      simp_all [and_three_eq_mod_four, and_one_eq_mod_two]

/-- Witness for C3: on V6M a 4-byte access at address 2 is rejected as
unaligned, and a 4-byte access at address 8 goes to the transport. -/
theorem c3_v6m_unaligned_rejected_witness :
    (cortex_m_read_memory .V6M 2 4 1 = .error .TARGET_UNALIGNED_ACCESS ∧
     cortex_m_write_memory .V6M 2 4 1 = .error .TARGET_UNALIGNED_ACCESS) ∧
    (cortex_m_read_memory .V6M 8 4 1 = .ok (.readBuf 4 1 8) ∧
     cortex_m_write_memory .V6M 8 4 1 = .ok (.writeBuf 4 1 8)) :=
  ⟨(c3_v6m_unaligned_rejected .V6M 2 4 1).1 rfl rfl (by decide),
   (c3_v6m_unaligned_rejected .V6M 8 4 1).2.2.1 rfl (by decide) (by decide)⟩

/-! ## Bit helpers for the sticky S_RESET_ST reasoning -/

theorem or_preserves_bit (s v m : Nat) (h : s &&& m ≠ 0) :
    (s ||| v) &&& m ≠ 0 := by
  obtain ⟨i, hi⟩ := Nat.ne_zero_implies_bit_true h
  intro hz
  have hzb : ((s ||| v) &&& m).testBit i = false := by
    rw [hz]; exact Nat.zero_testBit i
  rw [Nat.testBit_and, Nat.testBit_or] at hzb
  rw [Nat.testBit_and] at hi
  simp_all

theorem and_reset_clear_mask (x : Nat) :
    (x &&& (UINT32_MAX ^^^ S_RESET_ST)) &&& S_RESET_ST = 0 := by
  rw [Nat.and_assoc]
  have h : (UINT32_MAX ^^^ S_RESET_ST) &&& S_RESET_ST = 0 := by decide
  rw [h, Nat.and_zero]

/-- **C10.** Calling halt on a target whose state is already HALTED returns
OK without issuing any DHCSR write or any other AP transaction, and leaves
the target (state, debug_reason, cached debug-register shadows) entirely
unchanged. -/
theorem c10_halt_on_halted_is_noop (cfg : JtagCfg) (t : Tgt)
    (h : t.state = .HALTED) :
    cortex_m_halt_one cfg t = ⟨t, [], [], .OK⟩ := by
  unfold cortex_m_halt_one
  simp [h]

/-- Witness for C10 at a concrete halted target. -/
theorem c10_halt_on_halted_is_noop_witness :
    cortex_m_halt_one ⟨false, false⟩ { tgt0 with state := .HALTED } =
      ⟨{ tgt0 with state := .HALTED }, [], [], .OK⟩ :=
  c10_halt_on_halted_is_noop ⟨false, false⟩ { tgt0 with state := .HALTED } rfl

/-- **C9.** In `cortex_m_resume`, a failure of the SMP restore path only
logs a warning and the current target is still restarted via
`cortex_m_restart_one`; the return value of that restart call is never
propagated (the result does not depend on it), and the value returned after
the restart is the stored earlier error: the SMP restore error if it
failed, otherwise OK. -/
theorem c9_resume_restart_result_not_propagated
    (smp dbg : Bool) (r1 r2 r3 r3' : Res) :
    (cortex_m_resume smp dbg r1 r2 r3 = cortex_m_resume smp dbg r1 r2 r3') ∧
    (r1 = .OK →
      (cortex_m_resume smp dbg r1 r2 r3).2 = true ∧
      (cortex_m_resume smp dbg r1 r2 r3).1 =
        (if smp = true ∧ dbg = false ∧ r2 ≠ .OK then r2 else .OK)) := by
  constructor
  · rfl
  · intro h
    subst h
    unfold cortex_m_resume
    by_cases hs : smp <;> by_cases hd : dbg <;> by_cases h2 : r2 = Res.OK <;>
      simp_all

/-- Witness for C9: SMP resume with a failing SMP restore: restart still
happens and the SMP restore error is returned; the restart result (OK in
one run, FAIL in the other) is immaterial. -/
theorem c9_resume_restart_result_not_propagated_witness :
    (cortex_m_resume true false .OK (.error .FAIL) .OK =
       cortex_m_resume true false .OK (.error .FAIL) (.error .TRANSPORT)) ∧
    (cortex_m_resume true false .OK (.error .FAIL) .OK).2 = true ∧
    (cortex_m_resume true false .OK (.error .FAIL) .OK).1 = .error .FAIL := by
  have h := c9_resume_restart_result_not_propagated true false .OK
    (.error .FAIL) .OK (.error .TRANSPORT)
  refine ⟨h.1, (h.2 rfl).1, ?_⟩
  have h2 := (h.2 rfl).2
  simpa using h2

/-! ### Shape lemmas for the DHCSR mask helpers

`cortex_m_set_maskints` (and the three policy wrappers) only ever change the
cached DHCSR value. -/

theorem set_maskints_shape (t : Tgt) (m : Bool) :
    ∃ d, (cortex_m_set_maskints t m).1 = { t with dcb_dhcsr := d } := by
  unfold cortex_m_set_maskints cortex_m_write_debug_halt_mask
  split_ifs <;> exact ⟨_, rfl⟩

theorem set_maskints_for_halt_shape (t : Tgt) :
    ∃ d, (cortex_m_set_maskints_for_halt t).1 = { t with dcb_dhcsr := d } := by
  obtain ⟨i, st, dr, sm, ex, po, dh, sk, nd, dd, ds, im, me, sl, rv, pcv, fr⟩ := t
  unfold cortex_m_set_maskints_for_halt
  rcases im <;> exact set_maskints_shape _ _

theorem set_maskints_for_run_shape (t : Tgt) :
    ∃ d, (cortex_m_set_maskints_for_run t).1 = { t with dcb_dhcsr := d } := by
  obtain ⟨i, st, dr, sm, ex, po, dh, sk, nd, dd, ds, im, me, sl, rv, pcv, fr⟩ := t
  unfold cortex_m_set_maskints_for_run
  rcases im <;> exact set_maskints_shape _ _

theorem set_maskints_for_step_shape (t : Tgt) :
    ∃ d, (cortex_m_set_maskints_for_step t).1 = { t with dcb_dhcsr := d } := by
  obtain ⟨i, st, dr, sm, ex, po, dh, sk, nd, dd, ds, im, me, sl, rv, pcv, fr⟩ := t
  unfold cortex_m_set_maskints_for_step
  rcases im <;> exact set_maskints_shape _ _

theorem set_maskints_for_halt_sticky (t : Tgt) :
    (cortex_m_set_maskints_for_halt t).1.sticky = t.sticky := by
  obtain ⟨d, hd⟩ := set_maskints_for_halt_shape t
  rw [hd]

/-- **C6.** The S_RESET_ST bit of the sticky DHCSR accumulator
(`dcb_dhcsr_cumulated_sticky`) is cleared only together with acting on the
RESET transition: whenever the poll step clears it, the target's state is
RESET on exit of that same step (and the step reports OK after handling the
transition); the sticky accumulator `cortex_m_cumulate_dhcsr_sticky` can
never clear the bit, and `cortex_m_halt_one` never touches the sticky
word. -/
theorem c6_sticky_reset_cleared_only_with_transition (t : Tgt)
    (h : t.sticky &&& S_RESET_ST ≠ 0) :
    ((cortex_m_poll_one t).tgt.sticky &&& S_RESET_ST = 0 ∧
     (cortex_m_poll_one t).tgt.state = .RESET ∧
     (cortex_m_poll_one t).res = .OK) ∧
    (∀ s d, s &&& S_RESET_ST ≠ 0 →
      cortex_m_cumulate_dhcsr_sticky s d &&& S_RESET_ST ≠ 0) ∧
    (∀ cfg t', (cortex_m_halt_one cfg t').tgt.sticky = t'.sticky) := by
  have hs : (poll_read_and_lockup t).1.sticky &&& S_RESET_ST ≠ 0 := by
    unfold poll_read_and_lockup cortex_m_read_dhcsr_atomic_sticky
      cortex_m_write_debug_halt_mask cortex_m_cumulate_dhcsr_sticky
    dsimp only
    by_cases hl : (t.dhcsr_stream.headD 0) &&& S_LOCKUP ≠ 0
    · rw [if_pos hl]
      exact or_preserves_bit _ _ _ (or_preserves_bit _ _ _ h)
    · rw [if_neg hl]
      exact or_preserves_bit _ _ _ h
  refine ⟨?_, ?_, ?_⟩
  · simp only [cortex_m_poll_one]
    rw [if_pos hs]
    by_cases hst : (poll_read_and_lockup t).1.state ≠ .RESET
    · rw [if_pos hst]
      exact ⟨and_reset_clear_mask _, rfl, rfl⟩
    · rw [if_neg hst]
      exact ⟨and_reset_clear_mask _, not_not.mp hst, rfl⟩
  · intro s d hsd
    exact or_preserves_bit s d _ hsd
  · intro cfg t'
    unfold cortex_m_halt_one
    split_ifs <;>
      simp [cortex_m_write_debug_halt_mask, set_maskints_for_halt_sticky]

/-- Witness for C6: a running target with a pending sticky S_RESET_ST. -/
theorem c6_sticky_reset_cleared_only_with_transition_witness :
    (cortex_m_poll_one { tgt0 with sticky := S_RESET_ST }).tgt.sticky &&&
        S_RESET_ST = 0 ∧
    (cortex_m_poll_one { tgt0 with sticky := S_RESET_ST }).tgt.state = .RESET ∧
    (cortex_m_poll_one { tgt0 with sticky := S_RESET_ST }).res = .OK :=
  (c6_sticky_reset_cleared_only_with_transition
    { tgt0 with sticky := S_RESET_ST } (by decide)).1

/-- **C4 counterexample.** A fast bulk read captures one DHCSR with S_REGRDY
clear: the fast read fails with TIMEOUT and the same debug entry re-reads
through the slow path (third component `true`).  But the slow path cleared
`slow_register_read` again because no register needed polling, so the NEXT
debug entry takes the fast path (third component `false`) - refuting
"subsequent debug entries use the slow path". -/
theorem c4_counterexample :
    (debug_entry_load_regs ⟨false, 0⟩ false true [0] [(false, .OK)]).2.2
        = true ∧
    (debug_entry_load_regs ⟨false, 0⟩ false true [0] [(false, .OK)]).2.1
        = .OK ∧
    (debug_entry_load_regs ⟨false, 0⟩ false true [0]
        [(false, .OK)]).1.slow_register_read = false ∧
    (debug_entry_load_regs
        (debug_entry_load_regs ⟨false, 0⟩ false true [0] [(false, .OK)]).1
        false true [S_REGRDY] [(false, .OK)]).2.2 = false := by
  decide

/-- **C4 (amended).** If any DHCSR value captured during the fast bulk
register read has S_REGRDY clear, the fast read fails with TIMEOUT; debug
entry then sets slow_register_read and re-reads the whole register file
through the per-register polled path within the same entry (the whole
outcome equals running the slow read on the flagged state); the slow path
clears slow_register_read at its start, so subsequent debug entries use
the slow path only while some register still required polling. -/
theorem c4_fast_read_timeout_falls_back_to_slow (cm : RegCM)
    (dbg restore_ok : Bool) (captured : List Nat) (loads : List (Bool × Res))
    (hfast : cm.slow_register_read = false)
    (hrestore : ¬(dbg = true ∧ restore_ok = false))
    (hnr : captured.any (fun d => d &&& S_REGRDY = 0) = true) :
    (cortex_m_fast_read_all_regs cm dbg restore_ok captured).2 =
        .error .TIMEOUT_REACHED ∧
    (debug_entry_load_regs cm dbg restore_ok captured loads).2.2 = true ∧
    debug_entry_load_regs cm dbg restore_ok captured loads =
      ((cortex_m_slow_read_all_regs
          { (cortex_m_fast_read_all_regs cm dbg restore_ok captured).1 with
            slow_register_read := true } loads).1,
       (cortex_m_slow_read_all_regs
          { (cortex_m_fast_read_all_regs cm dbg restore_ok captured).1 with
            slow_register_read := true } loads).2,
       true) := by
  have hfr : (cortex_m_fast_read_all_regs cm dbg restore_ok captured).2 =
      .error .TIMEOUT_REACHED := by
    unfold cortex_m_fast_read_all_regs
    rw [if_neg, if_pos hnr]
    intro hc
    exact hrestore ⟨hc.1, by simpa using hc.2⟩
  refine ⟨hfr, ?_, ?_⟩ <;>
    · unfold debug_entry_load_regs
      rw [if_pos (by simp [hfast])]
      simp only [hfr]
      simp

/-- Witness for C4's amended theorem: one captured not-ready DHCSR, one
polled slow reload. -/
theorem c4_fast_read_timeout_falls_back_to_slow_witness :
    (cortex_m_fast_read_all_regs ⟨false, 0⟩ false true [0]).2 =
        .error .TIMEOUT_REACHED ∧
    (debug_entry_load_regs ⟨false, 0⟩ false true [0] [(true, .OK)]).2.2
        = true ∧
    debug_entry_load_regs ⟨false, 0⟩ false true [0] [(true, .OK)] =
      ((cortex_m_slow_read_all_regs
          { (cortex_m_fast_read_all_regs ⟨false, 0⟩ false true [0]).1 with
            slow_register_read := true } [(true, .OK)]).1,
       (cortex_m_slow_read_all_regs
          { (cortex_m_fast_read_all_regs ⟨false, 0⟩ false true [0]).1 with
            slow_register_read := true } [(true, .OK)]).2,
       true) :=
  c4_fast_read_timeout_falls_back_to_slow ⟨false, 0⟩ false true [0]
    [(true, .OK)] rfl (by decide) (by decide)

/-! ### Wait-loop helper lemmas -/

theorem regrdy_wait_timeout (oracle : Nat → Nat)
    (h : ∀ j, oracle j &&& S_REGRDY = 0) :
    ∀ (fuel i : Nat) (slow : Bool),
      regrdy_wait oracle slow i fuel = (.error .TIMEOUT_REACHED, true) := by
  intro fuel
  induction fuel with
  | zero =>
    intro i slow
    unfold regrdy_wait
    rw [if_neg (by simp [h i])]
  | succ n ih =>
    intro i slow
    unfold regrdy_wait
    rw [if_neg (by simp [h i])]
    exact ih (i + 1) true

theorem srh_wait_never (oracle : Nat → Nat × Nat)
    (h : ∀ i, (oracle i).1 &&& S_HALT = 0) :
    ∀ (rem i : Nat), srh_wait oracle i rem = false := by
  intro rem
  induction rem with
  | zero => intro i; rfl
  | succ n ih =>
    intro i
    unfold srh_wait
    rw [if_neg]
    · exact ih (i + 1)
    · intro hc
      exact hc.1 (h i)

theorem headD_and_mask_zero (l : List Nat) (m : Nat)
    (h : ∀ v ∈ l, v &&& m = 0) : l.headD 0 &&& m = 0 := by
  cases l with
  | nil => simp
  | cons a l => exact h a (List.mem_cons_self a l)

theorem isr_wait_times_out (fuel : Nat) :
    ∀ t : Tgt, (∀ v ∈ t.dhcsr_stream, v &&& S_HALT = 0) →
      (isr_wait t fuel).2.2 = true := by
  induction fuel with
  | zero =>
    intro t h
    unfold isr_wait cortex_m_read_dhcsr_atomic_sticky
    dsimp only
    rw [if_neg (by simp only [ne_eq, not_not]; exact headD_and_mask_zero _ _ h)]
  | succ n ih =>
    intro t h
    unfold isr_wait cortex_m_read_dhcsr_atomic_sticky
    dsimp only
    rw [if_neg (by simp only [ne_eq, not_not]; exact headD_and_mask_zero _ _ h)]
    exact ih _ (fun v hv => h v (List.mem_of_mem_tail hv))

theorem step_exec_phase_timeout (t : Tgt) (pcv fuel : Nat)
    (hA : t.isrmasking_mode = .AUTO)
    (hS : ∀ v ∈ t.dhcsr_stream, v &&& S_HALT = 0) :
    (step_exec_phase t pcv false (fun _ => false) false true fuel).2.2.1
        = true ∧
    (step_exec_phase t pcv false (fun _ => false) false true fuel).2.2.2
        = .tempBp true := by
  obtain ⟨d, hd⟩ := set_maskints_for_run_shape t
  have hstream :
      ((cortex_m_write_debug_halt_mask (cortex_m_set_maskints_for_run t).1 0
        (C_HALT ||| C_STEP)).1).dhcsr_stream = t.dhcsr_stream := by
    rw [hd]
    rfl
  have htmo := isr_wait_times_out fuel
    ((cortex_m_write_debug_halt_mask (cortex_m_set_maskints_for_run t).1 0
      (C_HALT ||| C_STEP)).1)
    (by rw [hstream]; exact hS)
  unfold step_exec_phase
  rw [if_neg (by simp), if_neg (by simp [hA]), if_neg (by simp),
    if_neg (by simp)]
  dsimp only
  rw [if_pos htmo]
  exact ⟨rfl, rfl⟩

theorem step_isr_timeout (t : Tgt) (fuel : Nat)
    (hH : t.state = .HALTED) (hA : t.isrmasking_mode = .AUTO)
    (hS : ∀ v ∈ t.dhcsr_stream, v &&& S_HALT = 0) :
    (cortex_m_step t true 0 false (fun _ => false) false true fuel).res
        = .OK ∧
    (cortex_m_step t true 0 false (fun _ => false) false true fuel).tgt.state
        = .RUNNING ∧
    (cortex_m_step t true 0 false
        (fun _ => false) false true fuel).tgt.debug_reason = .NOTHALTED := by
  have hex := step_exec_phase_timeout { t with debug_reason := .SINGLESTEP }
    t.pc fuel hA hS
  unfold cortex_m_step
  rw [if_neg (by simp [hH])]
  dsimp only
  simp only [Bool.false_and, if_neg, ite_false, Bool.and_self]
  rw [if_pos]
  · exact ⟨rfl, rfl, rfl⟩
  · exact hex.1

/-- **C7 counterexample.** Both waits expire and the claim's TIMEOUT is not
produced: `cortex_m_soft_reset_halt` (VECTRESET supported, halted-with-
VCATCH never observed in its 100 iterations, hence the Bool component
`false`) returns OK, and the interrupt-aware step whose 500 ms wait never
sees S_HALT also returns OK, leaving the target RUNNING with reason
NOT_HALTED. -/
theorem c7_counterexample :
    (cortex_m_soft_reset_halt tgt0 true (fun _ => (0, 0))).2.2.1 = .OK ∧
    (cortex_m_soft_reset_halt tgt0 true (fun _ => (0, 0))).2.2.2 = false ∧
    (cortex_m_step { tgt0 with state := .HALTED } true 0 false
        (fun _ => false) false true 3).res = .OK ∧
    (cortex_m_step { tgt0 with state := .HALTED } true 0 false
        (fun _ => false) false true 3).tgt.state = .RUNNING ∧
    (cortex_m_step { tgt0 with state := .HALTED } true 0 false
        (fun _ => false) false true 3).tgt.debug_reason = .NOTHALTED ∧
    Res.OK ≠ Res.error .TIMEOUT_REACHED := by
  decide

/-- **C7 (amended).** When the bounded S_REGRDY wait of a register transfer
expires, the operation fails with TIMEOUT (and flags slow reads).  The two
other bounded waits do NOT produce TIMEOUT: `cortex_m_soft_reset_halt`
returns OK after its 100 iterations x 1 ms budget expires without reaching
the halted-with-VCATCH state, and the interrupt-aware step whose core does
not re-halt within 500 ms returns OK, leaving the target RUNNING with
debug_reason NOT_HALTED. -/
theorem c7_amended_bounded_waits :
    (∀ (oracle : Nat → Nat) (fuel i : Nat) (slow : Bool),
        (∀ j, oracle j &&& S_REGRDY = 0) →
        regrdy_wait oracle slow i fuel = (.error .TIMEOUT_REACHED, true)) ∧
    (∀ (t : Tgt) (oracle : Nat → Nat × Nat),
        (∀ i, (oracle i).1 &&& S_HALT = 0) →
        (cortex_m_soft_reset_halt t true oracle).2.2.1 = .OK ∧
        (cortex_m_soft_reset_halt t true oracle).2.2.2 = false) ∧
    (∀ (t : Tgt) (fuel : Nat),
        t.state = .HALTED → t.isrmasking_mode = .AUTO →
        (∀ v ∈ t.dhcsr_stream, v &&& S_HALT = 0) →
        (cortex_m_step t true 0 false (fun _ => false) false true fuel).res
            = .OK ∧
        (cortex_m_step t true 0 false
            (fun _ => false) false true fuel).tgt.state = .RUNNING ∧
        (cortex_m_step t true 0 false
            (fun _ => false) false true fuel).tgt.debug_reason
            = .NOTHALTED) := by
  refine ⟨?_, ?_, ?_⟩
  · intro oracle fuel i slow h
    exact regrdy_wait_timeout oracle h fuel i slow
  · intro t oracle h
    unfold cortex_m_soft_reset_halt
    rw [if_neg (by simp)]
    exact ⟨rfl, by dsimp only; exact srh_wait_never oracle h 100 0⟩
  · intro t fuel hH hA hS
    exact step_isr_timeout t fuel hH hA hS

/-- Witness for C7's amended theorem at concrete inputs: a never-ready
register oracle with a 5-iteration budget, a quiescent soft-reset-halt
oracle, and a step on a halted AUTO-mode target whose DHCSR never shows
S_HALT. -/
theorem c7_amended_bounded_waits_witness :
    regrdy_wait (fun _ => 0) false 0 5 = (.error .TIMEOUT_REACHED, true) ∧
    (cortex_m_soft_reset_halt tgt0 true (fun _ => (0, 0))).2.2.1 = .OK ∧
    (cortex_m_step { tgt0 with state := .HALTED } true 0 false
        (fun _ => false) false true 2).res = .OK :=
  ⟨c7_amended_bounded_waits.1 (fun _ => 0) 5 0 false (by intro j; simp),
   (c7_amended_bounded_waits.2.1 tgt0 (fun _ => (0, 0))
      (by intro i; simp)).1,
   (c7_amended_bounded_waits.2.2 { tgt0 with state := .HALTED } 2 rfl rfl
      (by intro v hv; simp [tgt0] at hv)).1⟩

/-! ### Trace helper lemmas for the step engine -/

theorem dhcsrWriteMasks_append (a b : List Act) :
    dhcsrWriteMasks (a ++ b) = dhcsrWriteMasks a ++ dhcsrWriteMasks b := by
  induction a with
  | nil => rfl
  | cons x a ih => cases x <;> simp [dhcsrWriteMasks, ih]

theorem set_maskints_acts_wr (t : Tgt) (m : Bool) :
    ∀ a ∈ (cortex_m_set_maskints t m).2,
      ∃ mon moff v, a = Act.wrDhcsr mon moff v := by
  unfold cortex_m_set_maskints cortex_m_write_debug_halt_mask
  cases m <;> split_ifs <;> intro a ha <;> dsimp only at ha <;>
    first
    | (rw [List.mem_singleton] at ha; exact ⟨_, _, _, ha⟩)
    | exact absurd ha (List.not_mem_nil a)

theorem set_maskints_for_halt_acts_wr (t : Tgt) :
    ∀ a ∈ (cortex_m_set_maskints_for_halt t).2,
      ∃ mon moff v, a = Act.wrDhcsr mon moff v := by
  obtain ⟨i, st, dr, sm, ex, po, dh, sk, nd, dd, ds, im, me, sl, rv, pcv, fr⟩ := t
  rcases im <;> exact set_maskints_acts_wr _ _

theorem debug_entry_acts_benign (t : Tgt) :
    ∀ a ∈ (cortex_m_debug_entry t).2,
      (∀ x s, a ≠ Act.addTempBp x s) ∧ a ≠ Act.waitHalt := by
  intro a ha
  unfold cortex_m_debug_entry cortex_m_clear_halt cortex_m_write_debug_halt_mask
    cortex_m_read_dhcsr_atomic_sticky at ha
  dsimp only at ha
  simp only [List.append_assoc, List.mem_append, List.mem_cons,
    List.not_mem_nil, or_false] at ha
  rcases ha with h | h
  · obtain ⟨mon, moff, v, rfl⟩ := set_maskints_for_halt_acts_wr _ a h
    exact ⟨fun x s => by simp, by simp⟩
  · rcases h with h | h | h
    · subst h; exact ⟨fun x s => by simp, by simp⟩
    · rcases h with h | h <;> (subst h; exact ⟨fun x s => by simp, by simp⟩)
    · subst h; exact ⟨fun x s => by simp, by simp⟩

set_option maxHeartbeats 2000000 in
/-- **C8.** During an interrupt-aware step (AUTO masking mode, no BKPT
instruction at the PC), whenever `(pc & 2)` is non-zero and a breakpoint
exists at `(pc & ~3)`, the step engine always takes the masked-step
shortcut: its DHCSR writes start with the direct halt / masked step /
re-halt sequence, no temporary breakpoint is installed and the core is
never left to run (no wait-for-halt). -/
theorem c8_step_erratum_shortcut (t : Tgt) (current : Bool) (address : Nat)
    (handle_breakpoints : Bool) (bpFind : Nat → Bool) (tmp_bp_ok : Bool)
    (fuel : Nat)
    (hH : t.state = .HALTED) (hA : t.isrmasking_mode = .AUTO)
    (hpc : (if current then t.pc else address) &&& 0x02 ≠ 0)
    (hbp : bpFind ((if current then t.pc else address) &&&
        (UINT32_MAX ^^^ 0x03)) = true) :
    (cortex_m_step t current address handle_breakpoints bpFind false
        tmp_bp_ok fuel).path = .shortcutMasked ∧
    (∀ x s, Act.addTempBp x s ∉
        (cortex_m_step t current address handle_breakpoints bpFind false
          tmp_bp_ok fuel).acts) ∧
    Act.waitHalt ∉
        (cortex_m_step t current address handle_breakpoints bpFind false
          tmp_bp_ok fuel).acts ∧
    ∃ rest, dhcsrWriteMasks
        (cortex_m_step t current address handle_breakpoints bpFind false
          tmp_bp_ok fuel).acts =
      (C_HALT ||| C_MASKINTS, 0) :: (C_STEP, C_HALT) :: (C_HALT, 0) ::
        rest := by
  cases current
  case false =>
    have hpc2 : address &&& 0x02 ≠ 0 := by simpa using hpc
    have hbp2 : bpFind (address &&& (UINT32_MAX ^^^ 0x03)) = true := by
      simpa using hbp
    unfold cortex_m_step
    rw [if_neg (show ¬(t.state ≠ TargetState.HALTED) from by simp [hH]),
      if_pos (show ¬(false = true) from by simp)]
    dsimp only
    unfold step_exec_phase
    dsimp only
    rw [if_neg (show ¬(false = true) from by simp),
      if_neg (show ¬(t.isrmasking_mode ≠ IsrMask.AUTO) from by simp [hA]),
      if_pos (show address &&& 0x02 ≠ 0 ∧
        bpFind (address &&& (UINT32_MAX ^^^ 0x03)) = true from ⟨hpc2, hbp2⟩)]
    unfold cortex_m_write_debug_halt_mask cortex_m_read_dhcsr_atomic_sticky
    dsimp only
    rw [if_neg (show ¬(false = true) from by simp)]
    refine ⟨rfl, ?_, ?_, ?_⟩
    · intro x s hmem
      simp only [List.append_assoc, List.mem_append] at hmem
      rcases hmem with h | h | h | h | h | h | h | h | h
      all_goals first
        | exact (debug_entry_acts_benign _ _ h).1 x s rfl
        | (obtain ⟨mon, moff, v, hh⟩ := set_maskints_for_halt_acts_wr _ _ h;
           simp at hh)
        | (split_ifs at h <;> simp at h)
        | simp at h
    · intro hmem
      simp only [List.append_assoc, List.mem_append] at hmem
      rcases hmem with h | h | h | h | h | h | h | h | h
      all_goals first
        | exact (debug_entry_acts_benign _ _ h).2 rfl
        | (obtain ⟨mon, moff, v, hh⟩ := set_maskints_for_halt_acts_wr _ _ h;
           simp at hh)
        | (split_ifs at h <;> simp at h)
        | simp at h
    · split_ifs <;>
        · simp only [dhcsrWriteMasks_append, dhcsrWriteMasks,
            List.append_assoc, List.nil_append, List.append_nil,
            List.cons_append]
          exact ⟨_, rfl⟩
  case true =>
    have hpc2 : t.pc &&& 0x02 ≠ 0 := by simpa using hpc
    have hbp2 : bpFind (t.pc &&& (UINT32_MAX ^^^ 0x03)) = true := by
      simpa using hbp
    unfold cortex_m_step
    rw [if_neg (show ¬(t.state ≠ TargetState.HALTED) from by simp [hH]),
      if_neg (show ¬¬(true = true) from by simp)]
    dsimp only
    unfold step_exec_phase
    dsimp only
    rw [if_neg (show ¬(false = true) from by simp),
      if_neg (show ¬(t.isrmasking_mode ≠ IsrMask.AUTO) from by simp [hA]),
      if_pos (show t.pc &&& 0x02 ≠ 0 ∧
        bpFind (t.pc &&& (UINT32_MAX ^^^ 0x03)) = true from ⟨hpc2, hbp2⟩)]
    unfold cortex_m_write_debug_halt_mask cortex_m_read_dhcsr_atomic_sticky
    dsimp only
    rw [if_neg (show ¬(false = true) from by simp)]
    refine ⟨rfl, ?_, ?_, ?_⟩
    · intro x s hmem
      simp only [List.append_assoc, List.mem_append] at hmem
      rcases hmem with h | h | h | h | h | h | h | h | h
      all_goals first
        | exact (debug_entry_acts_benign _ _ h).1 x s rfl
        | (obtain ⟨mon, moff, v, hh⟩ := set_maskints_for_halt_acts_wr _ _ h;
           simp at hh)
        | (split_ifs at h <;> simp at h)
        | simp at h
    · intro hmem
      simp only [List.append_assoc, List.mem_append] at hmem
      rcases hmem with h | h | h | h | h | h | h | h | h
      all_goals first
        | exact (debug_entry_acts_benign _ _ h).2 rfl
        | (obtain ⟨mon, moff, v, hh⟩ := set_maskints_for_halt_acts_wr _ _ h;
           simp at hh)
        | (split_ifs at h <;> simp at h)
        | simp at h
    · split_ifs <;>
        · simp only [dhcsrWriteMasks_append, dhcsrWriteMasks,
            List.append_assoc, List.nil_append, List.append_nil,
            List.cons_append]
          exact ⟨_, rfl⟩

/-- Witness for C8: halted AUTO-mode target at pc 0x20000002 with a
breakpoint at 0x20000000. -/
theorem c8_step_erratum_shortcut_witness :
    (cortex_m_step { tgt0 with state := .HALTED, pc := 0x20000002 } true 0
        false (fun a => decide (a = 0x20000000)) false true 0).path
      = .shortcutMasked :=
  (c8_step_erratum_shortcut { tgt0 with state := .HALTED, pc := 0x20000002 }
    true 0 false (fun a => decide (a = 0x20000000)) true 0 rfl rfl
    (by decide) (by decide)).1

/-! ### Helpers for the SMP consolidation claim -/

theorem debug_entry_fields (x : Tgt) :
    (cortex_m_debug_entry x).1.smp = x.smp ∧
    (cortex_m_debug_entry x).1.state = x.state ∧
    (cortex_m_debug_entry x).1.id = x.id ∧
    (cortex_m_debug_entry x).1.postponed = x.postponed := by
  obtain ⟨d, hd⟩ := set_maskints_for_halt_shape x
  unfold cortex_m_debug_entry cortex_m_clear_halt cortex_m_write_debug_halt_mask
    cortex_m_read_dhcsr_atomic_sticky
  dsimp only
  rw [hd]
  exact ⟨rfl, rfl, rfl, rfl⟩

/-- The consolidation loop of poll_smp clears every set postponement flag
and emits the postponed HALTED event exactly for the flagged targets that
are halted. -/
theorem smp_emit_postponed_spec (ts : List Tgt) :
    smp_emit_postponed ts =
      (ts.map (fun t => if t.postponed then { t with postponed := false }
         else t),
       (ts.filter (fun t => t.postponed && decide (t.state = .HALTED))).map
         (fun t => Ev.HALTED t.id)) := by
  induction ts with
  | nil => rfl
  | cons t rest ih =>
    simp only [smp_emit_postponed, ih, List.map_cons, List.filter_cons]
    by_cases hp : t.postponed <;> by_cases hs : t.state = .HALTED <;>
      simp [hp, hs]

/-- **C5 counterexample.** Group of two SMP members: target 0 is already
HALTED from an earlier consolidation (no postponement flag), target 1 has
just halted with its flag set.  `cortex_m_poll_smp` emits the HALTED event
only for target 1, although target 0 also "ended in state HALTED" - so the
event is NOT emitted exactly for the targets that ended HALTED. -/
theorem c5_counterexample :
    (cortex_m_poll_smp ⟨false, false⟩
        [{ tgt0 with state := .HALTED, smp := true },
         { tgt0 with
            id := 1, state := .HALTED, smp := true, postponed := true }]).2.1
      = [Ev.HALTED 1] ∧
    ((cortex_m_poll_smp ⟨false, false⟩
        [{ tgt0 with state := .HALTED, smp := true },
         { tgt0 with
            id := 1, state := .HALTED, smp := true, postponed := true }]).1.map
        Tgt.state) = [TargetState.HALTED, TargetState.HALTED] ∧
    Ev.HALTED 0 ∉ [Ev.HALTED 1] := by
  decide

theorem poll_read_no_lockup (t : Tgt)
    (hl : t.dhcsr_stream.headD 0 &&& S_LOCKUP = 0) :
    poll_read_and_lockup t =
      ({ t with dcb_dhcsr := t.dhcsr_stream.headD 0,
                sticky := t.sticky ||| t.dhcsr_stream.headD 0,
                dhcsr_stream := t.dhcsr_stream.tail },
       [Act.rdDhcsr (t.dhcsr_stream.headD 0)], false) := by
  unfold poll_read_and_lockup cortex_m_read_dhcsr_atomic_sticky
    cortex_m_cumulate_dhcsr_sticky
  dsimp only
  rw [if_neg (show ¬(t.dhcsr_stream.headD 0 &&& S_LOCKUP ≠ 0) from by
    simp only [ne_eq, not_not]
    exact hl)]

theorem poll_reset_exit_skip (u : Tgt) (prev : TargetState)
    (h : u.state ≠ .RESET) :
    poll_reset_exit u prev = (u, [], prev) := by
  unfold poll_reset_exit
  rw [if_neg h]

/-- On an SMP member halting out of RUNNING, the halt phase runs debug
entry and postpones the HALTED event (sets the flag, emits nothing). -/
theorem poll_halt_phase_smp_postpone (u : Tgt)
    (hs : u.dcb_dhcsr &&& S_HALT ≠ 0) (hsmp : u.smp = true) :
    poll_halt_phase u .RUNNING =
      ({ (cortex_m_debug_entry { u with state := .HALTED }).1 with
          postponed := true },
       [],
       (cortex_m_debug_entry { u with state := .HALTED }).2 ++ []) := by
  unfold poll_halt_phase
  dsimp only
  rw [if_pos hs, if_pos (Or.inl rfl),
    if_pos ((debug_entry_fields { u with state := .HALTED }).1.trans hsmp),
    if_neg (show ¬(TargetState.RUNNING = TargetState.DEBUG_RUNNING) from by
      simp)]
  rfl

theorem poll_tail_phase_halted (u : Tgt) (h : u.state = .HALTED) :
    poll_tail_phase u .RUNNING = (u, []) := by
  unfold poll_tail_phase
  dsimp only
  rw [if_neg (show ¬(u.state = TargetState.UNKNOWN ∧
      (u.dcb_dhcsr &&& S_RETIRE_ST ≠ 0 ∨ u.dcb_dhcsr &&& S_SLEEP ≠ 0)) from by
    simp [h]),
    if_neg (show ¬(TargetState.RUNNING = TargetState.HALTED ∧
      u.dcb_dhcsr &&& S_HALT = 0) from by simp)]

set_option maxHeartbeats 2000000 in
/-- **C5 (amended).** In an SMP group, when poll_one observes S_HALT on a
target that was previously RUNNING it sets the target's
halt_event_postponed flag instead of emitting the HALTED event; after the
last target of the group has been polled, if any target has the flag set,
poll_smp halts all examined non-halted targets, re-polls them, and then
emits the HALTED event exactly for the targets whose postponement flag is
set after the re-poll and whose state is HALTED, clearing every
postponement flag. -/
theorem c5_smp_halt_consolidation :
    (∀ t : Tgt, t.smp = true → t.state = .RUNNING →
        t.dhcsr_stream.headD 0 &&& S_HALT ≠ 0 →
        t.dhcsr_stream.headD 0 &&& S_LOCKUP = 0 →
        (t.sticky ||| t.dhcsr_stream.headD 0) &&& S_RESET_ST = 0 →
        ((cortex_m_poll_one t).tgt.postponed = true ∧
         (cortex_m_poll_one t).tgt.state = .HALTED ∧
         Ev.HALTED t.id ∉ (cortex_m_poll_one t).evs)) ∧
    (∀ (cfg : JtagCfg) (ts : List Tgt), (ts.any fun t => t.postponed) = true →
        (cortex_m_poll_smp cfg ts).1 =
          (cortex_m_smp_post_halt_poll
              (cortex_m_smp_halt_all cfg ts).1).1.map
            (fun t => if t.postponed then { t with postponed := false }
              else t) ∧
        (cortex_m_poll_smp cfg ts).2.1 =
          (cortex_m_smp_post_halt_poll
              (cortex_m_smp_halt_all cfg ts).1).2.1 ++
            ((cortex_m_smp_post_halt_poll
                (cortex_m_smp_halt_all cfg ts).1).1.filter
              (fun t => t.postponed && decide (t.state = .HALTED))).map
            (fun t => Ev.HALTED t.id) ∧
        ∀ t' ∈ (cortex_m_poll_smp cfg ts).1, t'.postponed = false) := by
  constructor
  · intro t hsmp hrun hhalt hlock hst
    simp only [cortex_m_poll_one]
    rw [poll_read_no_lockup t hlock]
    dsimp only
    rw [hrun]
    rw [if_neg ?hsticky]
    case hsticky =>
      simp only [ne_eq, not_not]
      exact hst
    rw [poll_reset_exit_skip _ _ ?hres]
    case hres => simp
    dsimp only
    rw [poll_halt_phase_smp_postpone _ ?hs2 ?hsmp2]
    case hs2 => exact hhalt
    case hsmp2 => exact hsmp
    dsimp only
    rw [poll_tail_phase_halted _ ?hst2]
    case hst2 => exact (debug_entry_fields _).2.1
    exact ⟨rfl, (debug_entry_fields _).2.1, by simp⟩
  · intro cfg ts h
    unfold cortex_m_poll_smp
    rw [if_pos h]
    dsimp only
    rw [smp_emit_postponed_spec]
    refine ⟨rfl, rfl, ?_⟩
    intro t' ht'
    dsimp only at ht'
    rw [List.mem_map] at ht'
    obtain ⟨u, _, rfl⟩ := ht'
    by_cases hp : u.postponed <;> simp [hp]

theorem c5_smp_halt_consolidation_witness :
    (cortex_m_poll_one
        { tgt0 with
          smp := true, dhcsr_stream := [S_HALT] }).tgt.postponed = true ∧
    (cortex_m_poll_one
        { tgt0 with
          smp := true, dhcsr_stream := [S_HALT] }).tgt.state = .HALTED ∧
    Ev.HALTED 0 ∉ (cortex_m_poll_one
        { tgt0 with
          smp := true, dhcsr_stream := [S_HALT] }).evs :=
  c5_smp_halt_consolidation.1
    { tgt0 with
      smp := true, dhcsr_stream := [S_HALT] }
    (by decide) (by decide) (by decide) (by decide) (by decide)
